import Mathlib

/-!
Verification development for the content-gen backend
(`src/backend/src/content_gen_backend`): the polling engine, provider
response normalization, local asset store and the video router handlers,
shallowly embedded from

* `services/sora_service.py` (`SoraService`),
* `services/storage_service.py` (`StorageService`),
* `routers/videos.py`,
* `models/video_response.py`.

Modelling conventions:

* bytes are `List Nat`; file contents and HTTP bodies are byte lists;
* the local storage directory is a finite association list from file name to
  file bytes; writing a file overwrites any entry with the same name;
* time is discrete: a `retrieve` call is instantaneous and `asyncio.sleep n`
  advances the wall clock by exactly `n` seconds, so the elapsed time seen at
  each loop iteration is the sum of the sleep intervals performed so far;
* the polling loop is totalised with explicit fuel; `poll_until_complete`
  supplies fuel `timeout + 2`, which is provably never exhausted for the
  initial interval `2` used by the poll endpoint (each iteration advances the
  clock by at least 2 seconds and the loop exits once the clock passes
  `timeout`).
-/

/-- The four values of `VideoJob.status`
(`Literal["queued", "in_progress", "completed", "failed"]` in
`models/video_response.py`). -/
inductive JobStatus where
  | queued
  | in_progress
  | completed
  | failed
deriving DecidableEq, Repr

/-- The terminal-state test `video.status in ["completed", "failed"]` used by
`SoraService.poll_until_complete`. -/
def JobStatus.isTerminal : JobStatus → Bool
  | .completed => true
  | .failed => true
  | _ => false

/-- `ErrorDetail` from `models/video_response.py`. -/
structure ErrorDetail where
  message : String
  type : String
deriving DecidableEq, Repr

/-- The canonical `VideoJob` record from `models/video_response.py`.  Pydantic
defaults are reproduced as structure-field defaults. -/
structure VideoJob where
  id : String
  object : String := "video"
  status : JobStatus
  model : String
  progress : Option Int := none
  created_at : Int
  completed_at : Option Int := none
  expires_at : Option Int := none
  size : String
  seconds : String
  remixed_from_video_id : Option String := none
  error : Option ErrorDetail := none
deriving DecidableEq, Repr

/-- The provider-side error object as probed by `_convert_to_video_job`:
`message` and `type` attributes may each be absent (then `getattr` defaults
apply). -/
structure ProviderError where
  message : Option String := none
  type : Option String := none
deriving DecidableEq, Repr

/-- A provider `seconds` value: the upstream SDK may report the duration as a
number or as a string. -/
inductive ProviderSeconds where
  | num (n : Int)
  | str (s : String)
deriving DecidableEq, Repr

/-- The duck-typed provider video object consumed by
`SoraService._convert_to_video_job`.  Fields read through
`getattr(video, field, default)` or guarded by `hasattr` are optional; the
remaining fields (`id`, `status`, `model`, `created_at`, `size`) are accessed
directly and hence required.  An absent-or-falsy `error` attribute is
modelled as `none`. -/
structure ProviderVideo where
  id : String
  object : Option String := none
  status : JobStatus
  model : String
  progress : Option Int := none
  created_at : Int
  completed_at : Option Int := none
  expires_at : Option Int := none
  size : String
  seconds : Option ProviderSeconds := none
  remixed_from_video_id : Option String := none
  error : Option ProviderError := none
deriving DecidableEq, Repr

/-- Python `str(...)` on a provider duration value. -/
def pyStrSeconds : ProviderSeconds → String
  | .num n => toString n
  | .str s => s

/-- `SoraService._convert_to_video_job`: normalize a provider response into
the canonical `VideoJob`.  Mirrors the source line by line: optional fields
pass through `getattr(..., None)`; `object` defaults to `"video"`; `seconds`
is `str(video.seconds)` when present and the literal `"4"` when absent; a
present error is converted with `getattr` defaults
`"Unknown error"` / `"unknown"`. -/
def convert_to_video_job (video : ProviderVideo) : VideoJob :=
  let error_detail : Option ErrorDetail :=
    video.error.map fun e =>
      { message := e.message.getD "Unknown error"
        type := e.type.getD "unknown" }
  { id := video.id
    object := video.object.getD "video"
    status := video.status
    model := video.model
    progress := video.progress
    created_at := video.created_at
    completed_at := video.completed_at
    expires_at := video.expires_at
    size := video.size
    seconds := match video.seconds with
      | some s => pyStrSeconds s
      | none => "4"
    remixed_from_video_id := video.remixed_from_video_id
    error := error_detail }

/-- A byte string (file content / HTTP body). -/
abbrev Bytes := List Nat

/-- The storage directory of `StorageService`: a finite map from file name to
file bytes, as an association list (most recent write first). -/
abbrev Store := List (String × Bytes)

/-- Read the bytes of a file in the store, if the file exists. -/
def lookupFile : Store → String → Option Bytes
  | [], _ => none
  | (n, c) :: rest, name => if n = name then some c else lookupFile rest name

/-- The `extensions` dictionary of `StorageService.save_video` /
`get_video_path`, including the `.get(variant, ".bin")` default. -/
def extensions (variant : String) : String :=
  if variant = "video" then ".mp4"
  else if variant = "thumbnail" then ".webp"
  else if variant = "spritesheet" then ".jpg"
  else ".bin"

/-- `StorageService.get_content_type`: the `content_types` dictionary with
its `.get(variant, "application/octet-stream")` default. -/
def get_content_type (variant : String) : String :=
  if variant = "video" then "video/mp4"
  else if variant = "thumbnail" then "image/webp"
  else if variant = "spritesheet" then "image/jpeg"
  else "application/octet-stream"

/-- The file name `f"{video_id}_{variant}{ext}"` built by
`StorageService.save_video` and `get_video_path`. -/
def fileName (video_id variant : String) : String :=
  video_id ++ "_" ++ variant ++ extensions variant

/-- `StorageService.save_video`: write `content` to the deterministic file
name for `(video_id, variant)`, overwriting any existing file of that name,
and return the updated store together with the path written. -/
def save_video (st : Store) (video_id : String) (content : Bytes)
    (variant : String) : Store × String :=
  let fn := fileName video_id variant
  ((fn, content) :: st.filter fun p => !(p.1 == fn), fn)

/-- `StorageService.get_video_path`: return the path for
`(video_id, variant)` if such a file exists, `none` otherwise. -/
def get_video_path (st : Store) (video_id variant : String) : Option String :=
  let fn := fileName video_id variant
  if (lookupFile st fn).isSome then some fn else none

/-- Scan for the bracket closing a glob character class, returning the class
body and the remainder of the pattern, or `none` when the class is
unterminated. -/
def findClose : List Char → Option (List Char × List Char)
  | [] => none
  | ']' :: rest => some ([], rest)
  | c :: rest =>
    match findClose rest with
    | none => none
    | some (body, after) => some (c :: body, after)

/-- Split a glob class at its closing bracket, given the pattern remainder
after the opening `[`.  As in `fnmatch.translate`, the search for the
closing `]` starts after an optional leading `!` and an optional
immediately following `]` (both belong to the class body); `none` means the
class is unterminated and the `[` is a literal character. -/
def splitClass (l : List Char) : Option (List Char × List Char) :=
  match l with
  | '!' :: ']' :: rest =>
    match findClose rest with
    | none => none
    | some (body, after) => some ('!' :: ']' :: body, after)
  | '!' :: rest =>
    match findClose rest with
    | none => none
    | some (body, after) => some ('!' :: body, after)
  | ']' :: rest =>
    match findClose rest with
    | none => none
    | some (body, after) => some (']' :: body, after)
  | rest => findClose rest

/-- The character ranges denoted by a glob class body (after any leading `!`
has been stripped): `a-b` is the inclusive code-point range `a..b`, a dash
that cannot form a range (first or last character) is a literal, and any
other character is a singleton range. -/
def classRanges : List Char → List (Char × Char)
  | [] => []
  | a :: '-' :: b :: rest => (a, b) :: classRanges rest
  | a :: '-' :: [] => [(a, a), ('-', '-')]
  | a :: rest => (a, a) :: classRanges rest

/-- One token of a compiled glob pattern: `*`, `?`, a literal character, or
a character class with its negation flag and ranges. -/
inductive GlobTok where
  | star
  | anyChar
  | lit (c : Char)
  | cls (neg : Bool) (ranges : List (Char × Char))
deriving DecidableEq, Repr

/-- Compile a class body into a class token (`!` at the head negates). -/
def mkClassTok (body : List Char) : GlobTok :=
  match body with
  | '!' :: rest => .cls true (classRanges rest)
  | _ => .cls false (classRanges body)

/-- Tokenize a glob pattern, following `fnmatch.translate`: `*` and `?` are
wildcards, `[` opens a character class when a closing `]` exists (scanned as
in `splitClass`) and is a literal character otherwise, and every other
character is literal.  The fuel only serves structural recursion; each step
consumes at least one pattern character, so fuel equal to the pattern length
(as supplied by `parseGlob`) is never exhausted. -/
def parseGlobF : Nat → List Char → List GlobTok
  | _, [] => []
  | 0, _ :: _ => []
  | fuel + 1, '*' :: ps => .star :: parseGlobF fuel ps
  | fuel + 1, '?' :: ps => .anyChar :: parseGlobF fuel ps
  | fuel + 1, '[' :: ps =>
    match splitClass ps with
    | none => .lit '[' :: parseGlobF fuel ps
    | some (body, after) => mkClassTok body :: parseGlobF fuel after
  | fuel + 1, c :: ps => .lit c :: parseGlobF fuel ps

/-- Tokenize a glob pattern. -/
def parseGlob (p : List Char) : List GlobTok :=
  parseGlobF p.length p

/-- Match a tokenized glob pattern against a character list: `star` matches
any (possibly empty) suffix split, `anyChar` exactly one character, `lit`
the identical character, and a class one character inside (or, when
negated, outside) its ranges, compared by code point. -/
def globToksMatch : List GlobTok → List Char → Bool
  | [], s => s.isEmpty
  | .star :: ts, s => s.tails.any fun t => globToksMatch ts t
  | .anyChar :: ts, s =>
    match s with
    | [] => false
    | _ :: cs => globToksMatch ts cs
  | .lit x :: ts, s =>
    match s with
    | [] => false
    | c :: cs => (x == c) && globToksMatch ts cs
  | .cls neg rs :: ts, s =>
    match s with
    | [] => false
    | c :: cs =>
      ((rs.any fun r => decide (r.1 ≤ c) && decide (c ≤ r.2)) != neg) &&
        globToksMatch ts cs

/-- Glob matching of a pattern against a file name at the character-list
level, as performed by Python `Path.glob` / `fnmatch`: `*` matches any
(possibly empty) character sequence, `?` exactly one character, `[...]` one
character of a class (with `!` negation and `-` ranges; an unterminated `[`
is a literal), and every other character itself. -/
def globMatchL (p s : List Char) : Bool :=
  globToksMatch (parseGlob p) s

/-- Glob matching on strings. -/
def globMatchS (p s : String) : Bool :=
  globMatchL p.data s.data

/-- `StorageService.delete_video_files`: remove every file whose name matches
the glob pattern `f"{video_id}_*"` and return the updated store together
with the number of files removed. -/
def delete_video_files (st : Store) (video_id : String) : Store × Nat :=
  let pat := video_id ++ "_*"
  (st.filter fun p => !(globMatchS pat p.1),
   (st.filter fun p => globMatchS pat p.1).length)

/-- Python substring test `needle in hay` on character lists. -/
def containsSub (needle : List Char) : List Char → Bool
  | [] => needle.isEmpty
  | c :: rest => needle.isPrefixOf (c :: rest) || containsSub needle rest

/-- Python `str.lower()`. -/
def strLower (s : String) : String :=
  String.mk (s.data.map Char.toLower)

/-- The routers' not-found sniffing
`"not found" in str(e).lower() or "404" in str(e)`. -/
def errIsNotFound (e : String) : Bool :=
  containsSub "not found".data (strLower e).data || containsSub "404".data e.data

/-- The backoff interval sequence of `SoraService.poll_until_complete`:
`intervalAt init n` is the duration of the `n`-th sleep when polling starts
from `current_interval = init`; after each sleep the interval becomes
`min(current_interval * 2, max_interval)` with `max_interval = 10`. -/
def intervalAt (init : Nat) : Nat → Nat
  | 0 => init
  | n + 1 => min (intervalAt init n * 2) 10

/-- Outcome of a polling run.  `timedOut elapsed retrieves sleeps` is the
`TimeoutError` exit carrying the elapsed wall-clock time at the moment of the
raise, the number of `retrieve` calls issued, and the sleep intervals
performed (in order); `finished` is a terminal job; `upstreamErr` is an
exception from the underlying retrieve propagating out of the loop;
`fuelOut` is the model's fuel-exhaustion artifact, unreachable for the fuel
supplied by `poll_until_complete` with a positive interval. -/
inductive PollOutcome where
  | timedOut (elapsed : Nat) (retrieves : Nat) (sleeps : List Nat)
  | finished (job : VideoJob) (retrieves : Nat) (sleeps : List Nat) (elapsed : Nat)
  | upstreamErr (msg : String) (retrieves : Nat) (sleeps : List Nat)
  | fuelOut
deriving DecidableEq, Repr

/-- The `while True` loop of `SoraService.poll_until_complete`, totalised by
fuel.  `retrieve k` is the result of the `k`-th `get_video_status` call
(errors from the underlying retrieve propagate immediately).  Each iteration
first checks `elapsed > timeout` and raises on failure; otherwise it
retrieves, returns a terminal job, or sleeps `interval` seconds and doubles
the interval capped at 10. -/
def pollAux (retrieve : Nat → Except String VideoJob) (timeout : Nat) :
    Nat → Nat → Nat → Nat → List Nat → PollOutcome
  | 0, _, _, _, _ => .fuelOut
  | fuel + 1, elapsed, interval, k, sleeps =>
    if timeout < elapsed then .timedOut elapsed k sleeps
    else
      match retrieve k with
      | .error e => .upstreamErr e (k + 1) sleeps
      | .ok video =>
        if video.status.isTerminal then .finished video (k + 1) sleeps elapsed
        else
          pollAux retrieve timeout fuel (elapsed + interval)
            (min (interval * 2) 10) (k + 1) (sleeps ++ [interval])

/-- `SoraService.poll_until_complete(video_id, timeout, poll_interval)`:
start with `elapsed = 0` and `current_interval = poll_interval`.  Fuel
`timeout + 2` suffices whenever `poll_interval ≥ 1` (each iteration advances
`elapsed` by at least one second and the loop exits once
`elapsed > timeout`). -/
def poll_until_complete (retrieve : Nat → Except String VideoJob)
    (timeout poll_interval : Nat) : PollOutcome :=
  pollAux retrieve timeout (timeout + 2) 0 poll_interval 0 []

/-- The HTTP status produced by the `poll_video` route handler
(`routers/videos.py`) for each polling outcome: a terminal job is returned
(200), `TimeoutError` maps to 504, any other exception maps to 404 when its
message sniffs as not-found and to 500 otherwise.  (`fuelOut` cannot occur
for the fuel chosen by `poll_until_complete`; it is mapped like a generic
exception.) -/
def pollHandlerStatus : PollOutcome → Nat
  | .finished _ _ _ _ => 200
  | .timedOut _ _ _ => 504
  | .upstreamErr e _ _ => if errIsNotFound e then 404 else 500
  | .fuelOut => 500

/-- Result of the `download_video_content` route handler
(`routers/videos.py`): HTTP status, served body bytes, response content
type, the storage state after the request, and ghost counters for the number
of upstream `download_content` calls and local `save_video` calls the
request performed. -/
structure DlResult where
  httpStatus : Nat
  body : Bytes := []
  contentType : String := ""
  state : Store
  upstreamCalls : Nat := 0
  saves : Nat := 0
  conflictStatus : Option JobStatus := none
deriving DecidableEq, Repr

/-- The `download_video_content` route handler on a successfully retrieved
job.  `job` is the result of `get_video_status`; `upstream` is the byte
content the provider's `download_content` would return for this
`(video_id, variant)`.  If the job is not `completed` the request is
rejected with 409 (the current status attached); otherwise a cache hit
serves the stored file's bytes, and a cache miss downloads from upstream,
writes through to the store, then serves the just-fetched bytes. -/
def download_video_content (job : VideoJob) (upstream : Bytes) (st : Store)
    (video_id variant : String) : DlResult :=
  if job.status ≠ .completed then
    { httpStatus := 409, state := st, conflictStatus := some job.status }
  else
    match get_video_path st video_id variant with
    | some path =>
      { httpStatus := 200
        body := (lookupFile st path).getD []
        contentType := get_content_type variant
        state := st }
    | none =>
      let saved := save_video st video_id upstream variant
      { httpStatus := 200
        body := upstream
        contentType := get_content_type variant
        state := saved.1
        upstreamCalls := 1
        saves := 1 }

/-- Result of the `remix_video` route handler: HTTP status, ghost counter of
upstream `remix` calls issued, and the response body (the new job, when
created). -/
structure RemixResult where
  httpStatus : Nat
  remixCalls : Nat
  body : Option VideoJob
deriving DecidableEq, Repr

/-- The `remix_video` route handler on a successfully retrieved source job:
reject with 400 and issue no upstream remix call unless the source status is
`completed`; otherwise call remix (whose result is `remixed`) and respond
201 with the new job. -/
def remix_video (source : VideoJob) (remixed : VideoJob) : RemixResult :=
  if source.status ≠ .completed then
    { httpStatus := 400, remixCalls := 0, body := none }
  else
    { httpStatus := 201, remixCalls := 1, body := some remixed }

/-- Result of the `delete_video` route handler: HTTP status, the local
storage state after the request, and the number of local files purged. -/
structure DeleteResult where
  httpStatus : Nat
  state : Store
  localDeleted : Nat
deriving DecidableEq, Repr

/-- The `delete_video` route handler.  `upstreamDelete` is the outcome of
`SoraService.delete_video` (which re-raises any provider error).  The local
purge `storage_service.delete_video_files` runs only after the upstream
delete returned successfully; an exception is mapped to 404/500 by message
sniffing and leaves the local store untouched. -/
def delete_video_route (upstreamDelete : Except String Unit) (st : Store)
    (video_id : String) : DeleteResult :=
  match upstreamDelete with
  | .error e =>
    { httpStatus := if errIsNotFound e then 404 else 500
      state := st
      localDeleted := 0 }
  | .ok _ =>
    let purged := delete_video_files st video_id
    { httpStatus := 200, state := purged.1, localDeleted := purged.2 }

/-! ### Sample data used by witnesses -/

/-- A minimal concrete job used by witnesses. -/
def mkJob (i : String) (st : JobStatus) : VideoJob :=
  { id := i, status := st, model := "sora-2", created_at := 0,
    size := "1280x720", seconds := "4" }

/-- A minimal concrete provider response with every optional field absent. -/
def sampleProviderVideo : ProviderVideo :=
  { id := "video_abc123", status := .queued, model := "sora-2",
    created_at := 1758941485, size := "1280x720" }

/-! ### C9: variant-to-content-type and variant-to-extension mappings -/

/-- **C9.**  The variant-to-content-type and variant-to-extension mappings
are pure total functions of the variant alone: `video ↦ video/mp4, .mp4`,
`thumbnail ↦ image/webp, .webp`, `spritesheet ↦ image/jpeg, .jpg`, and any
other variant value maps to `application/octet-stream` and `.bin`. -/
theorem variant_mapping_pure_total :
    get_content_type "video" = "video/mp4" ∧
    get_content_type "thumbnail" = "image/webp" ∧
    get_content_type "spritesheet" = "image/jpeg" ∧
    extensions "video" = ".mp4" ∧
    extensions "thumbnail" = ".webp" ∧
    extensions "spritesheet" = ".jpg" ∧
    (∀ v : String, v ≠ "video" → v ≠ "thumbnail" → v ≠ "spritesheet" →
      get_content_type v = "application/octet-stream" ∧ extensions v = ".bin") := by
  refine ⟨rfl, rfl, rfl, rfl, rfl, rfl, ?_⟩
  intro v h1 h2 h3
  constructor <;> simp [get_content_type, extensions, h1, h2, h3]

/-- Witness for C9 at the concrete unknown variant `"gif"`. -/
theorem variant_mapping_pure_total_witness :
    get_content_type "gif" = "application/octet-stream" ∧
    extensions "gif" = ".bin" :=
  variant_mapping_pure_total.2.2.2.2.2.2 "gif" (by decide) (by decide) (by decide)

/-! ### C6: normalization of provider responses -/

/-- **C6.**  `_convert_to_video_job` maps every missing optional provider
field (`progress`, `completed_at`, `expires_at`, `remixed_from_video_id`,
`error`) to `none`, and always produces `seconds` as a string: the decimal
rendering when the provider returned a number, the string itself when it
returned a string, and the default string `"4"` when it was omitted. -/
theorem normalization_missing_fields (v : ProviderVideo) :
    (v.progress = none → (convert_to_video_job v).progress = none) ∧
    (v.completed_at = none → (convert_to_video_job v).completed_at = none) ∧
    (v.expires_at = none → (convert_to_video_job v).expires_at = none) ∧
    (v.remixed_from_video_id = none →
      (convert_to_video_job v).remixed_from_video_id = none) ∧
    (v.error = none → (convert_to_video_job v).error = none) ∧
    (∀ n : Int, v.seconds = some (.num n) →
      (convert_to_video_job v).seconds = toString n) ∧
    (∀ s : String, v.seconds = some (.str s) →
      (convert_to_video_job v).seconds = s) ∧
    (v.seconds = none → (convert_to_video_job v).seconds = "4") := by
  refine ⟨?_, ?_, ?_, ?_, ?_, ?_, ?_, ?_⟩
  · intro h; simp [convert_to_video_job, h]
  · intro h; simp [convert_to_video_job, h]
  · intro h; simp [convert_to_video_job, h]
  · intro h; simp [convert_to_video_job, h]
  · intro h; simp [convert_to_video_job, h]
  · intro n h; simp [convert_to_video_job, h, pyStrSeconds]
  · intro s h; simp [convert_to_video_job, h, pyStrSeconds]
  · intro h; simp [convert_to_video_job, h]

/-- Witness for C6 at a concrete provider response omitting every optional
field (and the `seconds` field). -/
theorem normalization_missing_fields_witness :
    (convert_to_video_job sampleProviderVideo).progress = none ∧
    (convert_to_video_job sampleProviderVideo).error = none ∧
    (convert_to_video_job sampleProviderVideo).seconds = "4" :=
  ⟨(normalization_missing_fields sampleProviderVideo).1 rfl,
   (normalization_missing_fields sampleProviderVideo).2.2.2.2.1 rfl,
   (normalization_missing_fields sampleProviderVideo).2.2.2.2.2.2.2 rfl⟩

/-! ### C8: remix endpoint gating -/

/-- **C8.**  When the source job's status is not `completed` the remix
endpoint responds 400 and issues no upstream remix call (so no new job is
created); when the source is `completed` it issues the remix and responds
201 with the new job. -/
theorem remix_gating (source remixed : VideoJob) :
    (source.status ≠ .completed →
      remix_video source remixed =
        { httpStatus := 400, remixCalls := 0, body := none }) ∧
    (source.status = .completed →
      remix_video source remixed =
        { httpStatus := 201, remixCalls := 1, body := some remixed }) := by
  constructor
  · intro h; simp [remix_video, h]
  · intro h; simp [remix_video, h]

/-- Witness for C8: a `failed` source is rejected with 400 and zero remix
calls; a `completed` source yields 201 with the new job. -/
theorem remix_gating_witness :
    remix_video (mkJob "v1" .failed) (mkJob "v2" .queued) =
      { httpStatus := 400, remixCalls := 0, body := none } ∧
    remix_video (mkJob "v1" .completed) (mkJob "v2" .queued) =
      { httpStatus := 201, remixCalls := 1, body := some (mkJob "v2" .queued) } :=
  ⟨(remix_gating (mkJob "v1" .failed) (mkJob "v2" .queued)).1 (by decide),
   (remix_gating (mkJob "v1" .completed) (mkJob "v2" .queued)).2 rfl⟩

/-! ### C10: failed upstream delete leaves the local cache unchanged -/

/-- **C10.**  When the upstream provider delete raises (including a
not-found error), the delete route leaves the local asset store unchanged
and purges no local files: the local purge runs only after a successful
upstream delete, and the response is an error status, never 200. -/
theorem delete_error_preserves_cache (e : String) (st : Store) (video_id : String) :
    (delete_video_route (Except.error e) st video_id).state = st ∧
    (delete_video_route (Except.error e) st video_id).localDeleted = 0 ∧
    (delete_video_route (Except.error e) st video_id).httpStatus ≠ 200 := by
  refine ⟨rfl, rfl, ?_⟩
  simp only [delete_video_route]
  split <;> decide

/-! ### C4: content download endpoint -/

/-- **C4.**  For every content-download request on a successfully retrieved
job: a non-`completed` job is rejected with 409 carrying the current status,
with no upstream download and no local save; on a cache miss exactly one
upstream download and one local save occur and the just-fetched bytes are
served; a subsequent request for the same `(job_id, variant)` is a cache hit
with zero upstream calls, serving bytes equal to the cached file's bytes. -/
theorem download_endpoint_cache (job : VideoJob) (upstream upstream2 : Bytes)
    (st : Store) (video_id variant : String) :
    (job.status ≠ .completed →
      download_video_content job upstream st video_id variant =
        { httpStatus := 409, state := st, conflictStatus := some job.status }) ∧
    (job.status = .completed → get_video_path st video_id variant = none →
      (download_video_content job upstream st video_id variant).upstreamCalls = 1 ∧
      (download_video_content job upstream st video_id variant).saves = 1 ∧
      (download_video_content job upstream st video_id variant).body = upstream ∧
      (download_video_content job upstream st video_id variant).state =
        (save_video st video_id upstream variant).1) ∧
    (job.status = .completed → get_video_path st video_id variant = none →
      (download_video_content job upstream2
        (download_video_content job upstream st video_id variant).state
        video_id variant).upstreamCalls = 0 ∧
      (download_video_content job upstream2
        (download_video_content job upstream st video_id variant).state
        video_id variant).saves = 0 ∧
      (download_video_content job upstream2
        (download_video_content job upstream st video_id variant).state
        video_id variant).body = upstream ∧
      (download_video_content job upstream2
        (download_video_content job upstream st video_id variant).state
        video_id variant).state =
        (download_video_content job upstream st video_id variant).state) := by
  have hnone : get_video_path st video_id variant = none →
      lookupFile st (fileName video_id variant) = none := by
    intro hmiss
    simp only [get_video_path] at hmiss
    by_cases hc : (lookupFile st (fileName video_id variant)).isSome
    · rw [if_pos hc] at hmiss
      exact absurd hmiss (by simp)
    · simpa [Option.not_isSome_iff_eq_none] using hc
  refine ⟨?_, ?_, ?_⟩
  · intro h
    simp [download_video_content, h]
  · intro h hmiss
    simp [download_video_content, h, get_video_path, hnone hmiss]
  · intro h hmiss
    simp [download_video_content, h, get_video_path, hnone hmiss, save_video,
      lookupFile]

/-- Witness for C4 at the concrete scenario of the spec: job `v1`
`in_progress` is rejected with 409; once `completed`, the first request is a
cache miss with one upstream call, the second a cache hit with zero upstream
calls serving the first request's bytes. -/
theorem download_endpoint_cache_witness :
    download_video_content (mkJob "v1" .in_progress) [1, 2, 3] [] "v1" "video" =
      { httpStatus := 409, state := [], conflictStatus := some .in_progress } ∧
    (download_video_content (mkJob "v1" .completed) [1, 2, 3] [] "v1" "video").upstreamCalls = 1 ∧
    (download_video_content (mkJob "v1" .completed) [9]
      (download_video_content (mkJob "v1" .completed) [1, 2, 3] [] "v1" "video").state
      "v1" "video").upstreamCalls = 0 ∧
    (download_video_content (mkJob "v1" .completed) [9]
      (download_video_content (mkJob "v1" .completed) [1, 2, 3] [] "v1" "video").state
      "v1" "video").body = [1, 2, 3] :=
  ⟨(download_endpoint_cache (mkJob "v1" .in_progress) [1, 2, 3] [9] [] "v1" "video").1
      (by decide),
   ((download_endpoint_cache (mkJob "v1" .completed) [1, 2, 3] [9] [] "v1" "video").2.1
      rfl rfl).1,
   ((download_endpoint_cache (mkJob "v1" .completed) [1, 2, 3] [9] [] "v1" "video").2.2
      rfl rfl).1,
   ((download_endpoint_cache (mkJob "v1" .completed) [1, 2, 3] [9] [] "v1" "video").2.2
      rfl rfl).2.2.1⟩

/-! ### Glob-matching lemmas -/

/-- A lone `star` token matches every string. -/
theorem globToksMatch_star_all (s : List Char) :
    globToksMatch [.star] s = true := by
  simp [globToksMatch]

/-- A literal token list followed by `star` matches exactly the strings
having the literal characters as a front. -/
theorem globToksMatch_lit_star : ∀ (xs s : List Char),
    globToksMatch (xs.map GlobTok.lit ++ [.star]) s = xs.isPrefixOf s
  | [], s => by simp [globToksMatch_star_all s, List.isPrefixOf]
  | x :: t, [] => by simp [globToksMatch, List.isPrefixOf]
  | x :: t, c :: cs => by
    simp [globToksMatch, List.isPrefixOf, globToksMatch_lit_star t cs]

/-- Tokenizing one non-metacharacter pattern character yields its literal
token. -/
theorem parseGlob_cons_lit (c : Char) (p : List Char)
    (h1 : c ≠ '*') (h2 : c ≠ '?') (h3 : c ≠ '[') :
    parseGlob (c :: p) = .lit c :: parseGlob p := by
  simp [parseGlob, parseGlobF, h1, h2, h3]

/-- Tokenizing a metacharacter-free front concatenated with any remainder
yields the literal tokens followed by the remainder's tokens. -/
theorem parseGlob_lit_append : ∀ (xs : List Char),
    (∀ c ∈ xs, c ≠ '*' ∧ c ≠ '?' ∧ c ≠ '[') → ∀ (p : List Char),
    parseGlob (xs ++ p) = xs.map GlobTok.lit ++ parseGlob p
  | [], _ => fun p => by simp
  | x :: t, hx => fun p => by
    have h := hx x (by simp)
    have ih := parseGlob_lit_append t (fun d hd => hx d (by simp [hd])) p
    simp only [List.cons_append, List.map_cons]
    rw [parseGlob_cons_lit x (t ++ p) h.1 h.2.1 h.2.2, ih]

/-- `p` begins `s` (Python `str.startswith`). -/
def strStartsWith (p s : String) : Bool := p.data.isPrefixOf s.data

/-- `s` contains no glob metacharacter (`*`, `?`, `[`); for such a job id
the pattern `f"{s}_*"` is entirely literal except its trailing `*`.  (A `]`
with no opening `[` before it is a literal in fnmatch term by term, so it
needs no exclusion.) -/
def noGlobMeta (s : String) : Bool :=
  s.data.all fun c => !(c == '*') && !(c == '?') && !(c == '[')

/-- A list is an `isPrefixOf`-front of itself followed by anything. -/
theorem isPrefixOf_append_self : ∀ (l r : List Char), l.isPrefixOf (l ++ r) = true
  | [], r => by cases r <;> rfl
  | c :: t, r => by simp [List.isPrefixOf, isPrefixOf_append_self t r]

/-- For a metacharacter-free `video_id`, the glob pattern `f"{video_id}_*"`
matches exactly the names beginning with `video_id ++ "_"`. -/
theorem globMatchS_startsWith (video_id name : String)
    (h : noGlobMeta video_id = true) :
    globMatchS (video_id ++ "_*") name = strStartsWith (video_id ++ "_") name := by
  have hp : ∀ c ∈ video_id.data ++ ['_'], c ≠ '*' ∧ c ≠ '?' ∧ c ≠ '[' := by
    intro c hc
    rcases List.mem_append.mp hc with hc | hc
    · have hc2 := (List.all_eq_true.mp h) c hc
      simp only [Bool.and_eq_true, Bool.not_eq_true', beq_eq_false_iff_ne] at hc2
      exact ⟨hc2.1.1, hc2.1.2, hc2.2⟩
    · have hc3 : c = '_' := by simpa using hc
      subst hc3
      exact ⟨by decide, by decide, by decide⟩
  have hparse : parseGlob (video_id.data ++ ['_', '*']) =
      (video_id.data ++ ['_']).map GlobTok.lit ++ parseGlob ['*'] := by
    have hmain := parseGlob_lit_append (video_id.data ++ ['_']) hp ['*']
    simpa [List.append_assoc] using hmain
  have hstar : parseGlob ['*'] = [GlobTok.star] := rfl
  have hd1 : ("_*" : String).data = ['_', '*'] := rfl
  have hd2 : ("_" : String).data = ['_'] := rfl
  unfold globMatchS globMatchL strStartsWith
  simp only [String.data_append, hd1, hd2]
  rw [hparse, hstar]
  exact globToksMatch_lit_star (video_id.data ++ ['_']) name.data

/-- For a metacharacter-free `video_id`, every file `save_video` creates for
it matches the glob pattern `f"{video_id}_*"` used by
`delete_video_files`.  (The restriction is real: for `video_id = "a[b]"`
the pattern's class `[b]` makes the program's glob miss the saved files.) -/
theorem globMatchS_fileName (video_id variant : String)
    (h : noGlobMeta video_id = true) :
    globMatchS (video_id ++ "_*") (fileName video_id variant) = true := by
  rw [globMatchS_startsWith video_id (fileName video_id variant) h]
  unfold strStartsWith
  have hd2 : ("_" : String).data = ['_'] := rfl
  have hname : (fileName video_id variant).data =
      (video_id.data ++ ['_']) ++ (variant.data ++ (extensions variant).data) := by
    simp [fileName, String.data_append, hd2]
  simp only [String.data_append, hd2]
  rw [hname]
  exact isPrefixOf_append_self _ _

/-! ### Storage lemmas -/

/-- A file whose name satisfies `q` never survives filtering by `!(q ·)`:
`delete_video_files` removes every file matching its pattern. -/
theorem lookupFile_filter_none (st : Store) (name : String) (q : String → Bool)
    (h : q name = true) :
    lookupFile (st.filter fun p => !(q p.1)) name = none := by
  induction st with
  | nil => rfl
  | cons hd tl ih =>
    obtain ⟨n, c⟩ := hd
    by_cases hq : q n
    · simp [List.filter, hq, ih]
    · have hne : n ≠ name := by
        intro he
        rw [he, h] at hq
        exact hq rfl
      simp [List.filter, hq, lookupFile, hne, ih]

/-- For a metacharacter-free `video_id`, `delete_video_files` removes exactly
the files whose names begin with `video_id ++ "_"`, and returns their
number. -/
theorem delete_video_files_exact (st : Store) (video_id : String)
    (h : noGlobMeta video_id = true) :
    delete_video_files st video_id =
      (st.filter fun p => !(strStartsWith (video_id ++ "_") p.1),
       (st.filter fun p => strStartsWith (video_id ++ "_") p.1).length) := by
  have hfun : ∀ p : String × Bytes, p ∈ st →
      globMatchS (video_id ++ "_*") p.1 = strStartsWith (video_id ++ "_") p.1 :=
    fun p _ => globMatchS_startsWith video_id p.1 h
  have hkeep : (st.filter fun p => !(globMatchS (video_id ++ "_*") p.1)) =
      st.filter fun p => !(strStartsWith (video_id ++ "_") p.1) :=
    List.filter_congr fun p hp => by rw [hfun p hp]
  have hdrop : (st.filter fun p => globMatchS (video_id ++ "_*") p.1) =
      st.filter fun p => strStartsWith (video_id ++ "_") p.1 :=
    List.filter_congr fun p hp => hfun p hp
  simp only [delete_video_files]
  rw [hkeep, hdrop]

/-- The character data of a file name built by `save_video`. -/
theorem fileName_data (video_id variant : String) :
    (fileName video_id variant).data =
      video_id.data ++ ('_' :: (variant.data ++ (extensions variant).data)) := by
  have hd : ("_" : String).data = ['_'] := rfl
  simp [fileName, String.data_append, hd]

/-- Last characters of the three variant file names (`4`, `p`, `g` are
pairwise distinct, so the names never collide across variants). -/
theorem fileName_getLast (video_id : String) :
    ((fileName video_id "video").data.getLast? = some '4') ∧
    ((fileName video_id "thumbnail").data.getLast? = some 'p') ∧
    ((fileName video_id "spritesheet").data.getLast? = some 'g') := by
  refine ⟨?_, ?_, ?_⟩ <;>
  · rw [fileName_data, List.getLast?_append_of_ne_nil _ (by simp)]
    rfl

/-- Two file names with distinct last characters are distinct. -/
theorem fileName_ne_of_last (id1 id2 v1 v2 : String) (c1 c2 : Char)
    (h1 : (fileName id1 v1).data.getLast? = some c1)
    (h2 : (fileName id2 v2).data.getLast? = some c2)
    (hne : c1 ≠ c2) : fileName id1 v1 ≠ fileName id2 v2 := by
  intro he
  rw [he, h2] at h1
  exact hne (Option.some.inj h1).symm

/-- The naming scheme is injective on `(job id, variant)` pairs for the three
real variants. -/
theorem fileName_inj (id1 id2 v1 v2 : String)
    (h1 : v1 = "video" ∨ v1 = "thumbnail" ∨ v1 = "spritesheet")
    (h2 : v2 = "video" ∨ v2 = "thumbnail" ∨ v2 = "spritesheet")
    (he : fileName id1 v1 = fileName id2 v2) : id1 = id2 ∧ v1 = v2 := by
  have hdata : (fileName id1 v1).data = (fileName id2 v2).data := by rw [he]
  rcases h1 with h1 | h1 | h1 <;> rcases h2 with h2 | h2 | h2 <;>
    subst h1 <;> subst h2
  · rw [fileName_data, fileName_data] at hdata
    exact ⟨String.ext (List.append_cancel_right hdata), rfl⟩
  · exact absurd he (fileName_ne_of_last _ _ _ _ '4' 'p'
      (fileName_getLast id1).1 (fileName_getLast id2).2.1 (by decide))
  · exact absurd he (fileName_ne_of_last _ _ _ _ '4' 'g'
      (fileName_getLast id1).1 (fileName_getLast id2).2.2 (by decide))
  · exact absurd he (fileName_ne_of_last _ _ _ _ 'p' '4'
      (fileName_getLast id1).2.1 (fileName_getLast id2).1 (by decide))
  · rw [fileName_data, fileName_data] at hdata
    exact ⟨String.ext (List.append_cancel_right hdata), rfl⟩
  · exact absurd he (fileName_ne_of_last _ _ _ _ 'p' 'g'
      (fileName_getLast id1).2.1 (fileName_getLast id2).2.2 (by decide))
  · exact absurd he (fileName_ne_of_last _ _ _ _ 'g' '4'
      (fileName_getLast id1).2.2 (fileName_getLast id2).1 (by decide))
  · exact absurd he (fileName_ne_of_last _ _ _ _ 'g' 'p'
      (fileName_getLast id1).2.2 (fileName_getLast id2).2.1 (by decide))
  · rw [fileName_data, fileName_data] at hdata
    exact ⟨String.ext (List.append_cancel_right hdata), rfl⟩

/-! ### C7: asset store algebra -/

/-- Counterexample to C7 as stated: for job id `"a[b]"` — whose brackets
Python's glob reads as the character class `[b]`, so the pattern `a[b]_*`
does not match the name `a[b]_video.mp4` — `delete_video_files` after
saving all three variants removes nothing: it returns 0 and the store still
holds all three saved files. -/
theorem asset_store_counterexample :
    (delete_video_files
      (save_video (save_video (save_video [] "a[b]" [1] "video").1
        "a[b]" [2] "thumbnail").1 "a[b]" [3] "spritesheet").1 "a[b]").2 = 0 ∧
    (delete_video_files
      (save_video (save_video (save_video [] "a[b]" [1] "video").1
        "a[b]" [2] "thumbnail").1 "a[b]" [3] "spritesheet").1 "a[b]").1 =
      (save_video (save_video (save_video [] "a[b]" [1] "video").1
        "a[b]" [2] "thumbnail").1 "a[b]" [3] "spritesheet").1 := by
  exact ⟨rfl, rfl⟩

/-- **C7 (amended).**  `save_video` followed by `get_video_path` for the
same `(job_id, variant)` returns `some path` whose stored content equals the
saved bytes, for every job id; for a job id free of glob metacharacters
(`*`, `?`, `[`), `delete_video_files` after saving all three variants from
an empty store removes exactly three files (leaving the store empty) and
returns 3; and `delete_video_files` on a store with no files returns 0 and
changes nothing, for every job id. -/
theorem asset_store_algebra (st : Store) (video_id variant : String)
    (content c1 c2 c3 : Bytes) :
    (get_video_path (save_video st video_id content variant).1 video_id variant =
        some (save_video st video_id content variant).2 ∧
      lookupFile (save_video st video_id content variant).1
        (save_video st video_id content variant).2 = some content) ∧
    (noGlobMeta video_id = true →
      delete_video_files
          (save_video (save_video (save_video [] video_id c1 "video").1
            video_id c2 "thumbnail").1 video_id c3 "spritesheet").1 video_id =
        ([], 3)) ∧
    delete_video_files [] video_id = ([], 0) := by
  have h12 : (fileName video_id "video" == fileName video_id "thumbnail") = false := by
    simp only [beq_eq_false_iff_ne]
    exact fileName_ne_of_last _ _ _ _ '4' 'p' (fileName_getLast video_id).1
      (fileName_getLast video_id).2.1 (by decide)
  have h13 : (fileName video_id "video" == fileName video_id "spritesheet") = false := by
    simp only [beq_eq_false_iff_ne]
    exact fileName_ne_of_last _ _ _ _ '4' 'g' (fileName_getLast video_id).1
      (fileName_getLast video_id).2.2 (by decide)
  have h23 : (fileName video_id "thumbnail" == fileName video_id "spritesheet") = false := by
    simp only [beq_eq_false_iff_ne]
    exact fileName_ne_of_last _ _ _ _ 'p' 'g' (fileName_getLast video_id).2.1
      (fileName_getLast video_id).2.2 (by decide)
  refine ⟨⟨?_, ?_⟩, ?_, ?_⟩
  · simp [save_video, get_video_path, lookupFile]
  · simp [save_video, lookupFile]
  · intro hmeta
    have hm1 := globMatchS_fileName video_id "video" hmeta
    have hm2 := globMatchS_fileName video_id "thumbnail" hmeta
    have hm3 := globMatchS_fileName video_id "spritesheet" hmeta
    simp [save_video, delete_video_files, h12, h13, h23, hm1, hm2, hm3]
  · rfl

/-- Witness for the amended C7 at the concrete metacharacter-free id
`"v1"`. -/
theorem asset_store_algebra_witness :
    (get_video_path (save_video [] "v1" [5] "video").1 "v1" "video" =
        some (save_video [] "v1" [5] "video").2 ∧
      lookupFile (save_video [] "v1" [5] "video").1
        (save_video [] "v1" [5] "video").2 = some [5]) ∧
    delete_video_files
        (save_video (save_video (save_video [] "v1" [1] "video").1
          "v1" [2] "thumbnail").1 "v1" [3] "spritesheet").1 "v1" = ([], 3) ∧
    delete_video_files [] "v1" = ([], 0) :=
  ⟨(asset_store_algebra [] "v1" "video" [5] [1] [2] [3]).1,
   (asset_store_algebra [] "v1" "video" [5] [1] [2] [3]).2.1 (by decide),
   (asset_store_algebra [] "v1" "video" [5] [1] [2] [3]).2.2⟩

/-! ### C5: deleteAll versus the naming scheme -/

/-- Counterexample to C5 as stated: `save_video` creates a file for job id
`"a_b"` only, yet `delete_video_files` for the different job id `"a"`
removes it — the glob pattern `a_*` matches `a_b_video.mp4` — leaving the
store empty and reporting one deletion although no file was ever saved for
`"a"`. -/
theorem deleteAll_cross_id_counterexample :
    ("a" : String) ≠ "a_b" ∧
    delete_video_files (save_video [] "a_b" [1] "video").1 "a" = ([], 1) := by
  refine ⟨by decide, ?_⟩
  rfl

/-- **C5 (amended).**  The naming scheme `{job_id}_{variant}{ext}` is
collision-free across `(job id, variant)` pairs for the three variants; but
deletion selects files by the glob pattern `{job_id}_*`, so its guarantees
hold only for job ids free of glob metacharacters (`*`, `?`, `[`): for such
an id `delete_video_files` removes every file `save_video` created for it
(never under-deletes) and removes exactly the files whose names start with
`job_id ++ "_"` — which can include files saved for a different job id that
begins with `job_id` followed by an underscore (e.g. ids `"a"` and
`"a_b"`).  For ids containing metacharacters even the id's own files can
survive (e.g. id `"a[b]"`, whose pattern reads `[b]` as a character
class). -/
theorem deleteAll_amended (st : Store) (video_id variant : String)
    (id1 id2 v1 v2 : String) :
    (noGlobMeta video_id = true →
      lookupFile (delete_video_files st video_id).1 (fileName video_id variant) =
        none) ∧
    (v1 = "video" ∨ v1 = "thumbnail" ∨ v1 = "spritesheet" →
      v2 = "video" ∨ v2 = "thumbnail" ∨ v2 = "spritesheet" →
      fileName id1 v1 = fileName id2 v2 → id1 = id2 ∧ v1 = v2) ∧
    (noGlobMeta video_id = true →
      delete_video_files st video_id =
        (st.filter fun p => !(strStartsWith (video_id ++ "_") p.1),
         (st.filter fun p => strStartsWith (video_id ++ "_") p.1).length)) := by
  refine ⟨?_, fileName_inj id1 id2 v1 v2, delete_video_files_exact st video_id⟩
  intro hmeta
  simp only [delete_video_files]
  exact lookupFile_filter_none st (fileName video_id variant) _
    (globMatchS_fileName video_id variant hmeta)

/-- Witness for the amended C5 at concrete inputs. -/
theorem deleteAll_amended_witness :
    lookupFile (delete_video_files [("v1_video.mp4", [7])] "v1").1
      (fileName "v1" "video") = none ∧
    (("x" : String) = "x" ∧ ("video" : String) = "video") ∧
    delete_video_files [("v1_video.mp4", [7])] "v1" =
      ([("v1_video.mp4", [7])].filter fun p => !(strStartsWith ("v1" ++ "_") p.1),
       ([("v1_video.mp4", [7])].filter fun p => strStartsWith ("v1" ++ "_") p.1).length) :=
  ⟨(deleteAll_amended [("v1_video.mp4", [7])] "v1" "video" "x" "x" "video" "video").1
     (by decide),
   (deleteAll_amended [("v1_video.mp4", [7])] "v1" "video" "x" "x" "video" "video").2.1
     (Or.inl rfl) (Or.inl rfl) rfl,
   (deleteAll_amended [("v1_video.mp4", [7])] "v1" "video" "x" "x" "video" "video").2.2
     (by decide)⟩

/-! ### Polling-engine lemmas -/

/-- One unfolding of the polling loop. -/
theorem pollAux_succ (retrieve : Nat → Except String VideoJob)
    (timeout fuel elapsed interval k : Nat) (sleeps : List Nat) :
    pollAux retrieve timeout (fuel + 1) elapsed interval k sleeps =
      if timeout < elapsed then .timedOut elapsed k sleeps
      else
        match retrieve k with
        | .error e => .upstreamErr e (k + 1) sleeps
        | .ok video =>
          if video.status.isTerminal then .finished video (k + 1) sleeps elapsed
          else
            pollAux retrieve timeout fuel (elapsed + interval)
              (min (interval * 2) 10) (k + 1) (sleeps ++ [interval]) := by
  simp only [pollAux]

/-- One loop step on a successful, non-terminal retrieve: sleep and retry. -/
theorem pollAux_succ_ok (retrieve : Nat → Except String VideoJob)
    (timeout fuel elapsed interval k : Nat) (sleeps : List Nat)
    (video : VideoJob) (hre : retrieve k = .ok video)
    (hnt : video.status.isTerminal = false) (hto : ¬ timeout < elapsed) :
    pollAux retrieve timeout (fuel + 1) elapsed interval k sleeps =
      pollAux retrieve timeout fuel (elapsed + interval)
        (min (interval * 2) 10) (k + 1) (sleeps ++ [interval]) := by
  rw [pollAux_succ, if_neg hto]
  simp only [hre]
  rw [if_neg (by simp [hnt])]

/-- A timed-out run performed at least as many retrieves as the counter it
started from. -/
theorem pollAux_retrieves_le (retrieve : Nat → Except String VideoJob)
    (timeout : Nat) :
    ∀ (fuel elapsed interval k : Nat) (sleeps : List Nat) (e r : Nat)
      (s : List Nat),
      pollAux retrieve timeout fuel elapsed interval k sleeps =
        .timedOut e r s → k ≤ r := by
  intro fuel
  induction fuel with
  | zero =>
    intro elapsed interval k sleeps e r s h
    simp [pollAux] at h
  | succ n ih =>
    intro elapsed interval k sleeps e r s h
    rw [pollAux_succ] at h
    by_cases hto : timeout < elapsed
    · rw [if_pos hto] at h
      simp only [PollOutcome.timedOut.injEq] at h
      omega
    · rw [if_neg hto] at h
      cases hr : retrieve k with
      | error msg => simp only [hr] at h; simp at h
      | ok video =>
        simp only [hr] at h
        by_cases ht : video.status.isTerminal
        · rw [if_pos ht] at h; simp at h
        · rw [if_neg ht] at h
          have hk := ih _ _ _ _ _ _ _ h
          omega

/-- Under never-terminal retrieves the polling loop raises a timeout, with
elapsed time strictly above `timeout` and at most `timeout + 10` (the
invariants carried are: the interval stays in `[1, 10]`, the elapsed clock
never exceeds `timeout` by more than one interval, and the remaining fuel
covers the remaining time). -/
theorem pollAux_times_out (retrieve : Nat → Except String VideoJob)
    (timeout : Nat) (jobs : Nat → VideoJob)
    (hre : ∀ k, retrieve k = .ok (jobs k))
    (hnt : ∀ k, (jobs k).status.isTerminal = false) :
    ∀ (fuel elapsed interval k : Nat) (sleeps : List Nat),
      1 ≤ interval → interval ≤ 10 → elapsed ≤ timeout + interval →
      1 ≤ fuel → timeout + 2 ≤ fuel + elapsed →
      ∃ e r s,
        pollAux retrieve timeout fuel elapsed interval k sleeps =
          .timedOut e r s ∧ timeout < e ∧ e ≤ timeout + 10 := by
  intro fuel
  induction fuel with
  | zero => intro elapsed interval k sleeps h1 h2 h3 h4 h5; omega
  | succ n ih =>
    intro elapsed interval k sleeps h1 h2 h3 h4 h5
    by_cases hto : timeout < elapsed
    · exact ⟨elapsed, k, sleeps, by rw [pollAux_succ, if_pos hto], hto, by omega⟩
    · rw [pollAux_succ_ok retrieve timeout n elapsed interval k sleeps
        (jobs k) (hre k) (hnt k) hto]
      have hmin1 : 1 ≤ min (interval * 2) 10 := by
        rcases Nat.le_total (interval * 2) 10 with hc | hc
        · rw [Nat.min_eq_left hc]; omega
        · rw [Nat.min_eq_right hc]; omega
      have hmin2 : min (interval * 2) 10 ≤ 10 := Nat.min_le_right _ _
      have hmin3 : interval ≤ min (interval * 2) 10 := by
        rcases Nat.le_total (interval * 2) 10 with hc | hc
        · rw [Nat.min_eq_left hc]; omega
        · rw [Nat.min_eq_right hc]; omega
      exact ih (elapsed + interval) (min (interval * 2) 10) (k + 1)
        (sleeps ++ [interval]) hmin1 hmin2 (by omega) (by omega) (by omega)

/-- The sleep list of a timed-out run under never-terminal retrieves is
exactly the backoff sequence, one interval per retrieve performed. -/
theorem pollAux_trace (retrieve : Nat → Except String VideoJob)
    (timeout init : Nat) (jobs : Nat → VideoJob)
    (hre : ∀ k, retrieve k = .ok (jobs k))
    (hnt : ∀ k, (jobs k).status.isTerminal = false) :
    ∀ (fuel m elapsed : Nat) (e r : Nat) (s : List Nat),
      pollAux retrieve timeout fuel elapsed (intervalAt init m) m
        ((List.range m).map (intervalAt init)) = .timedOut e r s →
      s = (List.range r).map (intervalAt init) := by
  intro fuel
  induction fuel with
  | zero => intro m elapsed e r s h; simp [pollAux] at h
  | succ n ih =>
    intro m elapsed e r s h
    by_cases hto : timeout < elapsed
    · rw [pollAux_succ, if_pos hto] at h
      simp only [PollOutcome.timedOut.injEq] at h
      obtain ⟨-, h2, h3⟩ := h
      subst h2
      exact h3.symm
    · rw [pollAux_succ_ok retrieve timeout n elapsed (intervalAt init m) m
        ((List.range m).map (intervalAt init)) (jobs m) (hre m) (hnt m) hto] at h
      have harg : (List.range m).map (intervalAt init) ++ [intervalAt init m] =
          (List.range (m + 1)).map (intervalAt init) := by
        simp [List.range_succ]
      have hint : min (intervalAt init m * 2) 10 = intervalAt init (m + 1) := rfl
      rw [harg, hint] at h
      exact ih (m + 1) (elapsed + intervalAt init m) e r s h

/-- Every backoff interval is bounded by the 10-second ceiling. -/
theorem intervalAt_le_ten (init : Nat) (h : init ≤ 10) :
    ∀ n, intervalAt init n ≤ 10
  | 0 => h
  | _ + 1 => Nat.min_le_right _ _

/-- From the third sleep on, the backoff starting at 2 stays at 10. -/
theorem intervalAt_two_ge_three : ∀ n, intervalAt 2 (n + 3) = 10 := by
  intro n
  induction n with
  | zero => rfl
  | succ m ih =>
    have hstep : intervalAt 2 (m + 1 + 3) = min (intervalAt 2 (m + 3) * 2) 10 := rfl
    rw [hstep, ih]
    decide

/-- Closed form of the backoff sequence starting at 2: `2, 4, 8, 10, 10, …`. -/
theorem intervalAt_two_closed (n : Nat) :
    intervalAt 2 n =
      if n = 0 then 2 else if n = 1 then 4 else if n = 2 then 8 else 10 := by
  match n with
  | 0 => rfl
  | 1 => rfl
  | 2 => rfl
  | m + 3 =>
    rw [if_neg (by omega), if_neg (by omega), if_neg (by omega)]
    exact intervalAt_two_ge_three m

/-! ### C1: backoff sequence -/

/-- **C1.**  In every run of `poll_until_complete` (with the poll endpoint's
initial interval 2) in which the job stays non-terminal, the sleep intervals
between successive retrieves are exactly `intervalAt 2 0, intervalAt 2 1, …`
— one per retrieve performed — where the sequence starts at 2, each term is
the double of the previous one capped at 10 (so it runs `2, 4, 8, 10, 10,
…`) and no term ever exceeds 10. -/
theorem backoff_sequence (retrieve : Nat → Except String VideoJob)
    (timeout : Nat) (jobs : Nat → VideoJob)
    (hre : ∀ k, retrieve k = .ok (jobs k))
    (hnt : ∀ k, (jobs k).status.isTerminal = false) :
    ∃ e r s,
      poll_until_complete retrieve timeout 2 = .timedOut e r s ∧
      s = (List.range r).map (intervalAt 2) ∧
      intervalAt 2 0 = 2 ∧
      (∀ n, intervalAt 2 (n + 1) = min (intervalAt 2 n * 2) 10) ∧
      (∀ n, intervalAt 2 n =
        if n = 0 then 2 else if n = 1 then 4 else if n = 2 then 8 else 10) ∧
      (∀ n, intervalAt 2 n ≤ 10) := by
  obtain ⟨e, r, s, hrun, hlt, hle⟩ :=
    pollAux_times_out retrieve timeout jobs hre hnt (timeout + 2) 0 2 0 []
      (by omega) (by omega) (by omega) (by omega) (by omega)
  refine ⟨e, r, s, hrun, ?_, rfl, fun n => rfl, intervalAt_two_closed,
    intervalAt_le_ten 2 (by omega)⟩
  exact pollAux_trace retrieve timeout 2 jobs hre hnt (timeout + 2) 0 0 e r s hrun

/-- Witness for C1: a job that stays `in_progress` forever, polled with
timeout 5. -/
theorem backoff_sequence_witness :
    ∃ e r s,
      poll_until_complete (fun _ => Except.ok (mkJob "v1" .in_progress)) 5 2 =
        .timedOut e r s ∧
      s = (List.range r).map (intervalAt 2) ∧
      intervalAt 2 0 = 2 ∧
      (∀ n, intervalAt 2 (n + 1) = min (intervalAt 2 n * 2) 10) ∧
      (∀ n, intervalAt 2 n =
        if n = 0 then 2 else if n = 1 then 4 else if n = 2 then 8 else 10) ∧
      (∀ n, intervalAt 2 n ≤ 10) :=
  backoff_sequence (fun _ => Except.ok (mkJob "v1" .in_progress)) 5
    (fun _ => mkJob "v1" .in_progress) (fun _ => rfl) (fun _ => rfl)

/-! ### C2: timeout semantics and 504 mapping -/

/-- **C2.**  On a job that never reaches a terminal state,
`poll_until_complete` with timeout `t` exits with `timedOut` — the
`TimeoutError` raise, not any other error kind and with no further retries —
at an elapsed wall-clock time strictly above `t` and at most `t + 10`, where
10 bounds every backoff interval (so the excess is at most one backoff
interval); the poll endpoint maps this outcome to HTTP 504. -/
theorem poll_timeout_maps_504 (retrieve : Nat → Except String VideoJob)
    (timeout : Nat) (jobs : Nat → VideoJob)
    (hre : ∀ k, retrieve k = .ok (jobs k))
    (hnt : ∀ k, (jobs k).status.isTerminal = false) :
    ∃ e r s,
      poll_until_complete retrieve timeout 2 = .timedOut e r s ∧
      timeout < e ∧ e ≤ timeout + 10 ∧
      (∀ n, intervalAt 2 n ≤ 10) ∧
      pollHandlerStatus (.timedOut e r s) = 504 := by
  obtain ⟨e, r, s, hrun, hlt, hle⟩ :=
    pollAux_times_out retrieve timeout jobs hre hnt (timeout + 2) 0 2 0 []
      (by omega) (by omega) (by omega) (by omega) (by omega)
  exact ⟨e, r, s, hrun, hlt, hle, intervalAt_le_ten 2 (by omega), rfl⟩

/-- Witness for C2: a job that stays `in_progress` forever, polled with
timeout 5 (the run times out after 6 elapsed seconds). -/
theorem poll_timeout_maps_504_witness :
    ∃ e r s,
      poll_until_complete (fun _ => Except.ok (mkJob "v1" .in_progress)) 5 2 =
        .timedOut e r s ∧
      5 < e ∧ e ≤ 5 + 10 ∧
      (∀ n, intervalAt 2 n ≤ 10) ∧
      pollHandlerStatus (.timedOut e r s) = 504 :=
  poll_timeout_maps_504 (fun _ => Except.ok (mkJob "v1" .in_progress)) 5
    (fun _ => mkJob "v1" .in_progress) (fun _ => rfl) (fun _ => rfl)

/-! ### C3: at least one retrieve before any timeout -/

/-- **C3.**  `poll_until_complete` always performs at least one retrieve
before the timeout check can fail — the check `elapsed > timeout` is false
on the first iteration since `elapsed = 0` — so a timed-out run has
`retrieves ≥ 1`; and called with timeout 0 on a job whose first retrieve is
already terminal it returns that job immediately: one retrieve, no sleeps,
zero elapsed time. -/
theorem poll_first_retrieve :
    (∀ (retrieve : Nat → Except String VideoJob) (timeout e r : Nat)
        (s : List Nat),
      poll_until_complete retrieve timeout 2 = .timedOut e r s → 1 ≤ r) ∧
    (∀ (retrieve : Nat → Except String VideoJob) (job : VideoJob),
      retrieve 0 = .ok job → job.status.isTerminal = true →
      poll_until_complete retrieve 0 2 = .finished job 1 [] 0) := by
  constructor
  · intro retrieve timeout e r s h
    have hfuel : timeout + 2 = (timeout + 1) + 1 := rfl
    unfold poll_until_complete at h
    rw [hfuel, pollAux_succ, if_neg (by omega)] at h
    cases hr : retrieve 0 with
    | error msg => simp only [hr] at h; simp at h
    | ok video =>
      simp only [hr] at h
      by_cases ht : video.status.isTerminal
      · rw [if_pos ht] at h; simp at h
      · rw [if_neg ht] at h
        have hk := pollAux_retrieves_le retrieve timeout _ _ _ _ _ _ _ _ h
        omega
  · intro retrieve job h1 h2
    have hfuel : (0 : Nat) + 2 = 1 + 1 := rfl
    unfold poll_until_complete
    rw [hfuel, pollAux_succ, if_neg (by omega)]
    simp only [h1]
    rw [if_pos h2]

/-- Witness for C3: with timeout 0, a never-terminal job still gets one
retrieve before timing out, and an already-`completed` job is returned
immediately with no sleep. -/
theorem poll_first_retrieve_witness :
    poll_until_complete (fun _ => Except.ok (mkJob "v1" .queued)) 0 2 =
      .timedOut 2 1 [2] ∧
    1 ≤ 1 ∧
    poll_until_complete (fun _ => Except.ok (mkJob "v1" .completed)) 0 2 =
      .finished (mkJob "v1" .completed) 1 [] 0 :=
  ⟨rfl,
   poll_first_retrieve.1 (fun _ => Except.ok (mkJob "v1" .queued)) 0 2 1 [2] rfl,
   poll_first_retrieve.2 (fun _ => Except.ok (mkJob "v1" .completed))
     (mkJob "v1" .completed) rfl rfl⟩

/-- Witness for C10 at a concrete failing upstream delete over a non-empty
local store. -/
theorem delete_error_preserves_cache_witness :
    (delete_video_route (Except.error "boom") [("v1_video.mp4", [1])] "v1").state =
      [("v1_video.mp4", [1])] ∧
    (delete_video_route (Except.error "boom") [("v1_video.mp4", [1])] "v1").localDeleted = 0 ∧
    (delete_video_route (Except.error "boom") [("v1_video.mp4", [1])] "v1").httpStatus ≠ 200 :=
  delete_error_preserves_cache "boom" [("v1_video.mp4", [1])] "v1"
